import Mathlib

/-!
Shallow embedding of the rollup aggregation engine of the
notion-valtown blood-sugar/food log.

Conventions used throughout:
* JavaScript numbers are modelled as `ℚ` where fractional values occur
  (averages, macro totals, bonus multipliers) and as `ℤ` where the code
  only ever produces integers (per-day entry counts, XP, completion
  rates).  `Math.round` is `round : ℚ → ℤ` (both round halves toward
  `+∞`) and `x.toFixed(k)` followed by `Number(...)` is rounding to `k`
  decimal places with halves toward the larger value, i.e.
  `(round (x * 10^k) : ℚ) / 10^k`.
* A JavaScript object used as a string-keyed dictionary
  (`Record<string, number>` and friends) is an association list in
  insertion order: property lookup is the first matching key, property
  assignment overwrites in place when the key exists and appends
  otherwise, `Object.entries`/`Object.values` enumerate in list order.
* JavaScript string comparison (`<`, `<=` on `YYYY-MM-DD` strings) is
  the lexicographic order on `String` provided by Mathlib's
  `LinearOrder String`.
-/

namespace BloodSugarLog

/-- A JS `Record<string, number>` holding per-day entry counts. -/
abbrev CountMap := List (String × Int)

/-- JS property read `m[k]`: first binding of `k`, if any. -/
def getKey {α : Type} : List (String × α) → String → Option α
  | [], _ => none
  | (k, v) :: rest, d => if d = k then some v else getKey rest d

/-- JS `m[d] ?? 0`. -/
def getCount (m : CountMap) (d : String) : Int :=
  (getKey m d).getD 0

/-- JS property assignment `m[k] = v`: overwrite in place when `k` is
present (object keys are unique, so the first binding is the binding),
append otherwise. -/
def setKey {α : Type} : List (String × α) → String → α → List (String × α)
  | [], k, v => [(k, v)]
  | (k1, v1) :: rest, k, v =>
    if k = k1 then (k, v) :: rest else (k1, v1) :: setKey rest k v

/-- JS `Object.values(record).reduce((sum, value) => sum + value, 0)`
(`sumValues` in `src/shared/monthly_report.ts`). -/
def sumValues (m : CountMap) : Int :=
  (m.map Prod.snd).sum

/-- JS `Set<string>.add`: append unless already present. -/
def addBadge (l : List String) (b : String) : List String :=
  if b ∈ l then l else l ++ [b]

/-- Lexicographic comparison of character lists by code point. -/
def strLtList : List Char → List Char → Bool
  | [], [] => false
  | [], _ :: _ => true
  | _ :: _, [] => false
  | a :: as, b :: bs =>
    if a < b then true else if b < a then false else strLtList as bs

/-- JS `a < b` on strings: lexicographic by code unit — all strings the
engine compares are ASCII `YYYY-MM-DD` dates, where code-unit and
code-point order coincide. -/
def jsLt (a b : String) : Bool := strLtList a.toList b.toList

/-- JS `a <= b` on strings: `!(b < a)` (string comparison is total). -/
def jsLe (a b : String) : Bool := !(jsLt b a)

/-! ## Calendar model

`src/shared/date.ts` manipulates `YYYY-MM-DD` strings through
UTC-normalized `Date` objects.  A valid calendar-day string corresponds
to a unique day number (days since 1970-01-01); the `Date` timestamp of
`"<s>T00:00:00Z"` is exactly `dayNumber * 86400000` milliseconds, and
`setUTCDate(getUTCDate() + 1)` is `dayNumber + 1`.  An out-of-range
component (e.g. month 13 or Feb 30) yields an Invalid Date (`NaN`
timestamp), modelled by `parseDay` returning `none`. -/

/-- Gregorian leap-year test. -/
def isLeapYear (y : Int) : Bool :=
  y % 4 == 0 && (y % 100 != 0 || y % 400 == 0)

/-- Number of days in month `m` of year `y`. -/
def daysInMonth (y : Int) (m : Nat) : Nat :=
  if m = 2 then (if isLeapYear y then 29 else 28)
  else if m = 4 ∨ m = 6 ∨ m = 9 ∨ m = 11 then 30
  else 31

/-- Day number (days since 1970-01-01) of the Gregorian date
`y-m-d` (civil-to-days conversion, truncating integer division as in
the ECMAScript date arithmetic being modelled). -/
def daysFromCivil (y : Int) (m d : Nat) : Int :=
  let yy : Int := if m ≤ 2 then y - 1 else y
  let era : Int := (if 0 ≤ yy then yy else yy - 399) / 400
  let yoe : Int := yy - era * 400
  let mp : Int := (Int.ofNat m + 9) % 12
  let doy : Int := (153 * mp + 2) / 5 + Int.ofNat d - 1
  let doe : Int := yoe * 365 + yoe / 4 - yoe / 100 + doy
  era * 146097 + doe - 719468

/-- Inverse of `daysFromCivil`: the Gregorian date of a day number. -/
def civilFromDays (z0 : Int) : Int × Nat × Nat :=
  let z : Int := z0 + 719468
  let era : Int := (if 0 ≤ z then z else z - 146096) / 146097
  let doe : Int := z - era * 146097
  let yoe : Int := (doe - doe / 1460 + doe / 36524 - doe / 146096) / 365
  let y : Int := yoe + era * 400
  let doy : Int := doe - (365 * yoe + yoe / 4 - yoe / 100)
  let mp : Int := (5 * doy + 2) / 153
  let d : Int := doy - (153 * mp + 2) / 5 + 1
  let m : Int := if mp < 10 then mp + 3 else mp - 9
  (if m ≤ 2 then y + 1 else y, m.toNat, d.toNat)

/-- Zero-pad a number below 100 to two digits. -/
def pad2 (n : Nat) : String :=
  if n < 10 then "0" ++ toString n else toString n

/-- Zero-pad a year to four digits. -/
def pad4 (n : Nat) : String :=
  if n < 10 then "000" ++ toString n
  else if n < 100 then "00" ++ toString n
  else if n < 1000 then "0" ++ toString n
  else toString n

/-- `toDateOnly` applied to a day number: the `YYYY-MM-DD` rendering
(`date.toISOString().slice(0, 10)` in `src/shared/date.ts`). -/
def toDateOnly (z : Int) : String :=
  let c := civilFromDays z
  pad4 c.1.toNat ++ "-" ++ pad2 c.2.1 ++ "-" ++ pad2 c.2.2

/-- Numeric value of a decimal digit character. -/
def digitVal (c : Char) : Nat := c.toNat - 48

/-- Parse a `YYYY-MM-DD` string into its day number; `none` models the
Invalid Date (`NaN`) that `new Date(s + "T00:00:00Z")` produces for a
malformed or out-of-range string. -/
def parseDay (s : String) : Option Int :=
  match s.toList with
  | [y1, y2, y3, y4, s1, m1, m2, s2, d1, d2] =>
    if y1.isDigit && y2.isDigit && y3.isDigit && y4.isDigit &&
        (s1 == '-') && m1.isDigit && m2.isDigit && (s2 == '-') &&
        d1.isDigit && d2.isDigit then
      let y : Int :=
        Int.ofNat (digitVal y1 * 1000 + digitVal y2 * 100 +
          digitVal y3 * 10 + digitVal y4)
      let m : Nat := digitVal m1 * 10 + digitVal m2
      let d : Nat := digitVal d1 * 10 + digitVal d2
      if 1 ≤ m && m ≤ 12 && 1 ≤ d && d ≤ daysInMonth y m then
        some (daysFromCivil y m d)
      else none
    else none
  | _ => none

/-- `daysBetweenInclusive` of `src/shared/date.ts`:
`Math.floor((end - start) / 86400000) + 1` on the two timestamps.  The
timestamps are exact multiples of one day, so the quotient is exact;
`none` models the `NaN` result on an invalid date. -/
def daysBetweenInclusive (start endD : String) : Option Int :=
  match parseDay start, parseDay endD with
  | some s, some e => some (e - s + 1)
  | _, _ => none

/-- `listDateRange` of `src/shared/date.ts`: starting a cursor at
`start`, push `toDateOnly(cursor)` and advance one day while
`cursor <= end`.  The loop runs `end - start + 1` times when
`start ≤ end`, zero times when `end < start`, and zero times on an
invalid date (every comparison with `NaN` is false). -/
def listDateRange (start endD : String) : List String :=
  match parseDay start, parseDay endD with
  | some s, some e =>
    (List.range (e + 1 - s).toNat).map (fun (i : Nat) => toDateOnly (s + (i : Int)))
  | _, _ => []

/-- `countEntriesByDate` of `src/shared/date.ts`, generic over the
entry type via its `date` field projection:
`acc[entry.date] = (acc[entry.date] ?? 0) + 1` over the entries. -/
def countEntriesByDate {α : Type} (dateOf : α → String) (entries : List α) :
    CountMap :=
  entries.foldl (fun acc e => setKey acc (dateOf e) (getCount acc (dateOf e) + 1)) []

/-- Loop body of `calculateCurrentStreak`: walk the (already reversed)
date range, counting while `(dateCounts[date] ?? 0) > 0`, stopping at
the first failure. -/
def streakLoop (dateCounts : CountMap) : List String → Nat
  | [] => 0
  | d :: rest =>
    if 0 < getCount dateCounts d then streakLoop dateCounts rest + 1 else 0

/-- `calculateCurrentStreak` of `src/shared/date.ts`: iterate the range
from its last element backward (`for i = length-1 .. 0`), incrementing
while the day's count is positive and breaking otherwise. -/
def calculateCurrentStreak (dateRange : List String) (dateCounts : CountMap) :
    Nat :=
  streakLoop dateCounts dateRange.reverse

/-- `Math.round(x)` with halves toward `+∞`, as Mathlib's `round`. -/
abbrev jsRound (x : ℚ) : ℤ := round x

/-- `Number(x.toFixed(1))`: round to one decimal place. -/
def round1 (x : ℚ) : ℚ := (round (x * 10) : ℚ) / 10

/-- `Number(x.toFixed(2))`: round to two decimal places. -/
def round2 (x : ℚ) : ℚ := (round (x * 100) : ℚ) / 100

/-! ## Scoring engine and blood-sugar rollup builder

From `src/unnamed/part_007` (the blood-sugar shared module):
constants `XP_PER_ENTRY = 12`, `STREAK_BONUS_MULTIPLIER = 1.2`,
`HEALTHY_AVG_BONUS_MULTIPLIER = 1.2`, `HEALTHY_AVG_THRESHOLD = 100`. -/

def XP_PER_ENTRY : Int := 12
def STREAK_BONUS_MULTIPLIER : ℚ := 1.2
def HEALTHY_AVG_BONUS_MULTIPLIER : ℚ := 1.2
def HEALTHY_AVG_THRESHOLD : ℚ := 100

namespace BloodSugar

/-- Normalized blood-sugar entry (`Entry` of the blood-sugar module). -/
structure Entry where
  date : String
  createdTime : Option String
  value : ℚ
deriving DecidableEq, Repr

/-- Stats payload of a `BloodSugarRollup`. -/
structure Stats where
  totalEntries : Int
  avg : ℚ
  min : ℚ
  max : ℚ
  entriesByDate : CountMap
  expected : Int
  missing : Int
deriving DecidableEq, Repr

/-- `BloodSugarRollup` of the blood-sugar module. -/
structure Rollup where
  category : String
  periodStart : String
  periodEnd : String
  streak : Nat
  completionRate : Int
  xp : Int
  badges : List String
  stats : Stats
  runId : String
deriving DecidableEq, Repr

end BloodSugar

/-- `hasPerfectWeekStreak`: at least seven days in range and two or
more entries on every day of the range. -/
def hasPerfectWeekStreak (dateRange : List String) (dateCounts : CountMap) :
    Bool :=
  decide (7 ≤ dateRange.length) &&
    dateRange.all (fun date => decide (2 ≤ getCount dateCounts date))

/-- `calculateXp` of the blood-sugar module: `base = totalCount * 12`;
zero base scores zero; otherwise round the base scaled by the streak
and healthy-average bonuses. -/
def calculateXp (totalCount : Int) (avg : ℚ) (perfectWeekStreak : Bool) :
    Int :=
  let baseXp : Int := totalCount * XP_PER_ENTRY
  if baseXp = 0 then 0
  else
    let streakBonus : ℚ := if perfectWeekStreak then STREAK_BONUS_MULTIPLIER else 1
    let healthyAvgBonus : ℚ :=
      if 0 < avg ∧ avg < HEALTHY_AVG_THRESHOLD then HEALTHY_AVG_BONUS_MULTIPLIER else 1
    jsRound ((baseXp : ℚ) * streakBonus * healthyAvgBonus)

/-- `buildBadges` of the blood-sugar module (the first two arguments
are unused in the source, mirrored here). -/
def buildBadges (_dateRange : List String) (_dateCounts : CountMap)
    (totalCount : Int) (avg : ℚ) (perfectWeekStreak : Bool) : List String :=
  (if 7 ≤ totalCount then ["Mandy-Mode Consistency"] else []) ++
  (if 14 ≤ totalCount then ["Cage Match: Full Week"] else []) ++
  (if perfectWeekStreak then ["Cage Match: Double-Check Champion"] else []) ++
  (if 0 < avg ∧ avg < HEALTHY_AVG_THRESHOLD then ["National Treasure: Healthy Average"] else [])

/-- `buildBloodSugarRollup` of the blood-sugar module. -/
def buildBloodSugarRollup (entries : List BloodSugar.Entry)
    (start endD : String) : BloodSugar.Rollup :=
  let values := entries.map BloodSugar.Entry.value
  let count : Int := (values.length : Int)
  let avg : ℚ := if count = 0 then 0 else round1 (values.sum / (count : ℚ))
  let minV : ℚ := match values with
    | [] => 0
    | v :: vs => vs.foldl Min.min v
  let maxV : ℚ := match values with
    | [] => 0
    | v :: vs => vs.foldl Max.max v
  let dateCounts := countEntriesByDate BloodSugar.Entry.date entries
  let dateRange := listDateRange start endD
  let expected : Int := (dateRange.length : Int) * 2
  let missing : Int := Max.max 0 (expected - count)
  let completionRate : Int :=
    if expected = 0 then 0 else jsRound ((count : ℚ) / (expected : ℚ) * 100)
  let currentStreak := calculateCurrentStreak dateRange dateCounts
  let perfectWeekStreak := hasPerfectWeekStreak dateRange dateCounts
  let badges := buildBadges dateRange dateCounts count avg perfectWeekStreak
  let xp := calculateXp count avg perfectWeekStreak
  { category := "blood_sugar"
    periodStart := start
    periodEnd := endD
    streak := currentStreak
    completionRate := completionRate
    xp := xp
    badges := badges
    stats :=
      { totalEntries := count, avg := avg, min := minV, max := maxV,
        entriesByDate := dateCounts, expected := expected, missing := missing }
    runId := "blood_sugar-" ++ start ++ "-" ++ endD }

/-! ## Food rollup builder (`src/shared/food_enrich.ts`) -/

/-- `MacroStats` of `src/shared/food_enrich.ts` (the same shape as
`FoodMacroStats` of `src/shared/monthly_report.ts`). -/
structure MacroStats where
  count : ℚ
  total : ℚ
  avg : ℚ
deriving DecidableEq, Repr

namespace Food

/-- `Entry` of `src/shared/food_enrich.ts`; `macros` is the
`Partial<Record<MacroKey, number>>` object, an association list of the
macro keys that are present. -/
structure Entry where
  pageId : String
  date : String
  loggedAt : String
  food : String
  macros : List (String × ℚ)
deriving DecidableEq, Repr

/-- `FoodStats` of `src/shared/food_enrich.ts`. -/
structure Stats where
  totalEntries : Int
  uniqueDays : Int
  entriesByDate : CountMap
  avgEntriesPerDay : ℚ
  minEntriesPerDay : Int
  maxEntriesPerDay : Int
  macroSummary : List (String × MacroStats)
deriving DecidableEq, Repr

/-- `FoodRollup` of `src/shared/food_enrich.ts`. -/
structure Rollup where
  category : String
  periodStart : String
  periodEnd : String
  streak : Nat
  completionRate : Int
  xp : Int
  badges : List String
  stats : Stats
  runId : String
deriving DecidableEq, Repr

end Food

/-- Inner step of `calculateMacroSummary`: fold one entry's macro keys
into the running summary (`count += 1; total += value;
avg = round2(total / count)`). -/
def macroSummaryStep (summary : List (String × MacroStats))
    (p : String × ℚ) : List (String × MacroStats) :=
  let current := (getKey summary p.1).getD ⟨0, 0, 0⟩
  let count := current.count + 1
  let total := current.total + p.2
  setKey summary p.1 ⟨count, total, round2 (total / count)⟩

/-- `calculateMacroSummary` of `src/shared/food_enrich.ts`: for each
entry and each macro attribute it reports, accumulate count/total and
recompute the two-decimal average. -/
def calculateMacroSummary (entries : List Food.Entry) :
    List (String × MacroStats) :=
  entries.foldl (fun summary e => e.macros.foldl macroSummaryStep summary) []

/-- `buildFoodRollup` of `src/shared/food_enrich.ts`.  Note the source
sets `xp: 0` and `badges: []` unconditionally. -/
def buildFoodRollup (entries : List Food.Entry) (start endD : String) :
    Food.Rollup :=
  let dateRange := listDateRange start endD
  let entriesByDate := countEntriesByDate Food.Entry.date entries
  let uniqueDays : Int :=
    ((dateRange.filter (fun date => decide (0 < getCount entriesByDate date))).length : Int)
  let totalEntries : Int := (entries.length : Int)
  let avgEntriesPerDay : ℚ :=
    if dateRange.length = 0 then 0
    else round2 ((totalEntries : ℚ) / (dateRange.length : ℚ))
  let minEntriesPerDay : Int := match dateRange.map (getCount entriesByDate) with
    | [] => 0
    | v :: vs => vs.foldl Min.min v
  let maxEntriesPerDay : Int := match dateRange.map (getCount entriesByDate) with
    | [] => 0
    | v :: vs => vs.foldl Max.max v
  let completionRate : Int :=
    if dateRange.length = 0 then 0
    else jsRound ((uniqueDays : ℚ) / (dateRange.length : ℚ) * 100)
  let streak := calculateCurrentStreak dateRange entriesByDate
  let macroSummary := calculateMacroSummary entries
  { category := "food"
    periodStart := start
    periodEnd := endD
    streak := streak
    completionRate := completionRate
    xp := 0
    badges := []
    stats :=
      { totalEntries := totalEntries, uniqueDays := uniqueDays,
        entriesByDate := entriesByDate, avgEntriesPerDay := avgEntriesPerDay,
        minEntriesPerDay := minEntriesPerDay, maxEntriesPerDay := maxEntriesPerDay,
        macroSummary := macroSummary }
    runId := "food-" ++ start ++ "-" ++ endD }

/-! ## Monthly aggregation (`src/shared/monthly_report.ts`)

The monthly aggregator reads stored rollups whose `stats` field is an
untyped JSON payload, accessed through the optional shapes
`BloodSugarStatsShape` / `FoodStatsShape`.  `StatsShape` merges the two
shapes.  Fields read with a `?? {}` / `?? 0` default are modelled
directly by their default-applied type (an absent `entriesByDate`
behaves exactly like `[]`, an absent `totalEntries` like `0`); fields
guarded by a `typeof x === "number"` check (`avg`, `min`, `max`) are
modelled as `Option ℚ`. -/

/-- Stats payload shape read by the monthly aggregator. -/
structure StatsShape where
  entriesByDate : CountMap
  avg : Option ℚ
  min : Option ℚ
  max : Option ℚ
  totalEntries : Int
  macroSummary : List (String × MacroStats)
deriving DecidableEq, Repr

/-- `Rollup` of `src/shared/monthly_report.ts` (the stored-row view the
aggregator consumes). -/
structure Rollup where
  category : String
  periodStart : String
  periodEnd : String
  streak : Nat
  completionRate : Int
  xp : Int
  badges : List String
  stats : StatsShape
  runId : String
deriving DecidableEq, Repr

/-- `BloodSugarMonthlySummary` of `src/shared/monthly_report.ts`. -/
structure BloodSugarMonthlySummary where
  monthStart : String
  monthEnd : String
  rollupsIncluded : Nat
  totalEntries : Int
  average : ℚ
  min : ℚ
  max : ℚ
  completionRate : Int
  streak : Nat
  xp : Int
  badges : List String
  entriesByDate : CountMap
deriving DecidableEq, Repr

/-- `FoodMonthlySummary` of `src/shared/monthly_report.ts`. -/
structure FoodMonthlySummary where
  monthStart : String
  monthEnd : String
  rollupsIncluded : Nat
  totalEntries : Int
  uniqueDays : Nat
  avgEntriesPerDay : ℚ
  minEntriesPerDay : Int
  maxEntriesPerDay : Int
  completionRate : Int
  streak : Nat
  macroSummary : List (String × MacroStats)
  entriesByDate : CountMap
deriving DecidableEq, Repr

/-- `filterRollups` of `src/shared/monthly_report.ts`: inclusive mode
keeps any rollup whose period overlaps the month, strict mode keeps
only rollups fully contained in it. -/
def filterRollups (rollups : List Rollup) (monthStart monthEnd : String)
    (includePartialWeeks : Bool) : List Rollup :=
  rollups.filter fun rollup =>
    if includePartialWeeks then
      jsLe rollup.periodStart monthEnd && jsLe monthStart rollup.periodEnd
    else
      jsLe monthStart rollup.periodStart && jsLe rollup.periodEnd monthEnd

/-- Inner loop of `mergeEntriesByDate`: fold one rollup's
`entriesByDate` object into the accumulator, skipping dates outside
`[monthStart, monthEnd]`; on a collision keep the larger count. -/
def mergeInto (monthStart monthEnd : String) (acc : CountMap) :
    CountMap → CountMap
  | [] => acc
  | (date, count) :: rest =>
    if jsLt date monthStart || jsLt monthEnd date then
      mergeInto monthStart monthEnd acc rest
    else
      match getKey acc date with
      | none => mergeInto monthStart monthEnd (acc ++ [(date, count)]) rest
      | some current =>
        mergeInto monthStart monthEnd (setKey acc date (Max.max current count)) rest

/-- Outer loop of `mergeEntriesByDate` over the rollups. -/
def mergeLoop (monthStart monthEnd : String) (acc : CountMap) :
    List Rollup → CountMap
  | [] => acc
  | rollup :: rest =>
    mergeLoop monthStart monthEnd
      (mergeInto monthStart monthEnd acc rollup.stats.entriesByDate) rest

/-- `mergeEntriesByDate` of `src/shared/monthly_report.ts`. -/
def mergeEntriesByDate (rollups : List Rollup) (monthStart monthEnd : String) :
    CountMap :=
  mergeLoop monthStart monthEnd [] rollups

/-- Accumulator of the blood-sugar aggregation loop.  The source seeds
`min`/`max` with `±Infinity`; `none` models the untouched sentinel
(`Number.isFinite` false). -/
structure BSAcc where
  weightedSum : ℚ
  weightedCount : Int
  minV : Option ℚ
  maxV : Option ℚ
  xp : Int
  badges : List String
deriving DecidableEq, Repr

/-- One iteration of the `for (const rollup of filtered)` loop in
`aggregateBloodSugarMonth`. -/
def bsStep (a : BSAcc) (rollup : Rollup) : BSAcc :=
  let count := rollup.stats.totalEntries
  let a1 :=
    match rollup.stats.avg with
    | some avg =>
      if 0 < count then
        { a with weightedSum := a.weightedSum + avg * (count : ℚ),
                 weightedCount := a.weightedCount + count }
      else a
    | none => a
  let a2 :=
    match rollup.stats.min with
    | some v =>
      { a1 with minV := some (match a1.minV with | none => v | some c => Min.min c v) }
    | none => a1
  let a3 :=
    match rollup.stats.max with
    | some v =>
      { a2 with maxV := some (match a2.maxV with | none => v | some c => Max.max c v) }
    | none => a2
  { a3 with xp := a3.xp + rollup.xp,
            badges := rollup.badges.foldl addBadge a3.badges }

/-- `aggregateBloodSugarMonth` of `src/shared/monthly_report.ts`
(`includePartialWeeks` defaults to `false` at the call boundary). -/
def aggregateBloodSugarMonth (rollups : List Rollup)
    (monthStart monthEnd : String) (includePartialWeeks : Bool) :
    BloodSugarMonthlySummary :=
  let dateRange := listDateRange monthStart monthEnd
  let filtered := filterRollups rollups monthStart monthEnd includePartialWeeks
  let entriesByDate := mergeEntriesByDate filtered monthStart monthEnd
  let totalEntries := sumValues entriesByDate
  let acc := filtered.foldl bsStep ⟨0, 0, none, none, 0, []⟩
  let average : ℚ :=
    if acc.weightedCount = 0 then 0
    else round1 (acc.weightedSum / (acc.weightedCount : ℚ))
  let expected : Int := (dateRange.length : Int) * 2
  let completionRate : Int :=
    if expected = 0 then 0 else jsRound ((totalEntries : ℚ) / (expected : ℚ) * 100)
  let streak := calculateCurrentStreak dateRange entriesByDate
  { monthStart := monthStart
    monthEnd := monthEnd
    rollupsIncluded := filtered.length
    totalEntries := totalEntries
    average := average
    min := acc.minV.getD 0
    max := acc.maxV.getD 0
    completionRate := completionRate
    streak := streak
    xp := acc.xp
    badges := acc.badges
    entriesByDate := entriesByDate }

/-- Inner step of `aggregateMacroSummary`: merge one attribute's stats
into the running summary (sum `count` and `total`, recompute `avg`). -/
def aggMacroStep (summary : List (String × MacroStats))
    (p : String × MacroStats) : List (String × MacroStats) :=
  let existing := (getKey summary p.1).getD ⟨0, 0, 0⟩
  let count := existing.count + p.2.count
  let total := existing.total + p.2.total
  let avg : ℚ := if count = 0 then 0 else round2 (total / count)
  setKey summary p.1 ⟨count, total, avg⟩

/-- `aggregateMacroSummary` of `src/shared/monthly_report.ts`. -/
def aggregateMacroSummary (rollups : List Rollup) :
    List (String × MacroStats) :=
  rollups.foldl (fun summary r => r.stats.macroSummary.foldl aggMacroStep summary) []

/-- `aggregateFoodMonth` of `src/shared/monthly_report.ts`. -/
def aggregateFoodMonth (rollups : List Rollup)
    (monthStart monthEnd : String) (includePartialWeeks : Bool) :
    FoodMonthlySummary :=
  let dateRange := listDateRange monthStart monthEnd
  let filtered := filterRollups rollups monthStart monthEnd includePartialWeeks
  let entriesByDate := mergeEntriesByDate filtered monthStart monthEnd
  let totalEntries := sumValues entriesByDate
  let uniqueDays := (entriesByDate.filter (fun p => decide (0 < p.2))).length
  let avgEntriesPerDay : ℚ :=
    if dateRange.length = 0 then 0
    else round2 ((totalEntries : ℚ) / (dateRange.length : ℚ))
  let minEntriesPerDay : Int := match dateRange.map (getCount entriesByDate) with
    | [] => 0
    | v :: vs => vs.foldl Min.min v
  let maxEntriesPerDay : Int := match dateRange.map (getCount entriesByDate) with
    | [] => 0
    | v :: vs => vs.foldl Max.max v
  let completionRate : Int :=
    if dateRange.length = 0 then 0
    else jsRound ((uniqueDays : ℚ) / (dateRange.length : ℚ) * 100)
  let streak := calculateCurrentStreak dateRange entriesByDate
  let macroSummary := aggregateMacroSummary filtered
  { monthStart := monthStart
    monthEnd := monthEnd
    rollupsIncluded := filtered.length
    totalEntries := totalEntries
    uniqueDays := uniqueDays
    avgEntriesPerDay := avgEntriesPerDay
    minEntriesPerDay := minEntriesPerDay
    maxEntriesPerDay := maxEntriesPerDay
    completionRate := completionRate
    streak := streak
    macroSummary := macroSummary
    entriesByDate := entriesByDate }

/-! ## Rollup store (`src/storage/rollups.ts`)

`upsertWeeklyRollup` issues `INSERT OR REPLACE` into a table with
`UNIQUE(category, period_start)`.  SQLite's `INSERT OR REPLACE`
deletes any row violating the uniqueness constraint and inserts the
new row.  The store state is modelled as the list of rows in rowid
order projected to the observable columns — the autoincrement `id`
surrogate and the `created_at` write timestamp are storage-internal
bookkeeping (spec §9 explicitly excludes the surrogate id from the
engine's observable identity). -/

/-- `WeeklyRollup` of `src/storage/rollups.ts`: the columns
`upsertWeeklyRollup` writes (with `badges`/`stats` as the values whose
JSON serializations are stored). -/
structure WeeklyRollup where
  category : String
  periodStart : String
  periodEnd : String
  streak : Nat
  completionRate : Int
  xp : Int
  badges : List String
  stats : StatsShape
deriving DecidableEq, Repr

/-- The rollup-store state: stored rows in insertion order. -/
abbrev RollupStore := List WeeklyRollup

/-- `upsertWeeklyRollup`: SQLite `INSERT OR REPLACE` under
`UNIQUE(category, period_start)` — delete any row with the same
`(category, period_start)` key, then append the new row. -/
def upsertWeeklyRollup (store : RollupStore) (rollup : WeeklyRollup) :
    RollupStore :=
  store.filter (fun row =>
    !(row.category == rollup.category && row.periodStart == rollup.periodStart)) ++ [rollup]

/-- The `UNIQUE(category, period_start)` invariant of the
`weekly_rollups` table. -/
def uniqueKeys (store : RollupStore) : Prop :=
  store.Pairwise (fun a b =>
    ¬(a.category = b.category ∧ a.periodStart = b.periodStart))

/-! ## Verification -/

/-- The streak loop is the length of the longest positive-count prefix
of the (reversed) range. -/
lemma streakLoop_eq_takeWhile (dateCounts : CountMap) (l : List String) :
    streakLoop dateCounts l =
      (l.takeWhile (fun d => decide (0 < getCount dateCounts d))).length := by
  induction l with
  | nil => rfl
  | cons d rest ih =>
    by_cases h : 0 < getCount dateCounts d <;>
      simp [streakLoop, List.takeWhile_cons, h, ih]

/-- C7: `calculateCurrentStreak` scans the range from its last element
backward, counting consecutive days whose count is strictly positive,
stops at the first day with a zero (or absent, hence zero) count, and
returns 0 whenever the last day of the range has no entries; over
`[01,02,03,04]` with counts `{02:1, 03:2, 04:1}` it returns 3, and over
`[01,02,03]` with counts `{01:1, 03:1}` it returns 1. -/
theorem calculateCurrentStreak_spec :
    (∀ (dateRange : List String) (counts : CountMap),
      calculateCurrentStreak dateRange counts =
        (dateRange.reverse.takeWhile (fun d => decide (0 < getCount counts d))).length) ∧
    (∀ (dateRange : List String) (d : String) (counts : CountMap),
      getCount counts d = 0 →
      calculateCurrentStreak (dateRange ++ [d]) counts = 0) ∧
    calculateCurrentStreak ["01", "02", "03", "04"]
      [("02", 1), ("03", 2), ("04", 1)] = 3 ∧
    calculateCurrentStreak ["01", "02", "03"] [("01", 1), ("03", 1)] = 1 := by
  refine ⟨fun dateRange counts => streakLoop_eq_takeWhile counts dateRange.reverse,
    fun dateRange d counts h => ?_, by decide, by decide⟩
  simp [calculateCurrentStreak, streakLoop, h]

/-- Witness for C7 at a concrete input: a range whose last day has no
recorded count yields streak 0. -/
theorem calculateCurrentStreak_spec_witness :
    calculateCurrentStreak (["2026-01-01", "2026-01-02"] ++ ["2026-01-03"])
      [("2026-01-01", 1), ("2026-01-02", 1)] = 0 :=
  calculateCurrentStreak_spec.2.1 ["2026-01-01", "2026-01-02"] "2026-01-03"
    [("2026-01-01", 1), ("2026-01-02", 1)] (by decide)

/-- C5: `calculateXp` returns 0 when `totalCount * 12 = 0` and
otherwise `round(totalCount * 12 * streakBonus * avgBonus)` with
`streakBonus = 1.2` exactly when the perfect-week flag is set (else 1)
and `avgBonus = 1.2` exactly when `0 < avg < 100` (else 1), the
bonuses compounding multiplicatively; in particular
`calculateXp 14 95 true = 242` and `calculateXp 0 0 false = 0`. -/
theorem calculateXp_spec :
    (∀ (totalCount : Int) (avg : ℚ) (perfectWeekStreak : Bool),
      calculateXp totalCount avg perfectWeekStreak =
        if totalCount * 12 = 0 then 0
        else
          round (((totalCount : ℚ) * 12) *
            (if perfectWeekStreak then 1.2 else 1) *
            (if 0 < avg ∧ avg < 100 then 1.2 else 1))) ∧
    calculateXp 14 95 true = 242 ∧ calculateXp 0 0 false = 0 := by
  refine ⟨fun totalCount avg perfectWeekStreak => ?_,
    by norm_num [calculateXp, XP_PER_ENTRY, STREAK_BONUS_MULTIPLIER,
      HEALTHY_AVG_BONUS_MULTIPLIER, HEALTHY_AVG_THRESHOLD, jsRound, round_eq],
    by norm_num [calculateXp, XP_PER_ENTRY]⟩
  simp only [calculateXp, XP_PER_ENTRY, STREAK_BONUS_MULTIPLIER,
    HEALTHY_AVG_BONUS_MULTIPLIER, HEALTHY_AVG_THRESHOLD, jsRound]
  push_cast
  rfl

/-- C8: for valid day strings with `start ≤ end`,
`daysBetweenInclusive` returns exactly the length of
`listDateRange start end`. -/
theorem daysBetweenInclusive_eq_length (s e : String) (ds de : Int)
    (hs : parseDay s = some ds) (he : parseDay e = some de)
    (hle : ds ≤ de) :
    daysBetweenInclusive s e = some (((listDateRange s e).length : Int)) := by
  simp only [daysBetweenInclusive, listDateRange, hs, he, List.length_map,
    List.length_range, Option.some.injEq]
  omega

/-- Witness for C8 at `["2026-01-01", "2026-01-03"]`. -/
theorem daysBetweenInclusive_eq_length_witness :
    daysBetweenInclusive "2026-01-01" "2026-01-03" =
      some (((listDateRange "2026-01-01" "2026-01-03").length : Int)) :=
  daysBetweenInclusive_eq_length "2026-01-01" "2026-01-03" 20454 20456
    (by decide) (by decide) (by decide)

/-- C9: on an inverted range (end strictly before start)
`listDateRange` consistently returns the empty sequence — its cursor
loop never runs, so it neither throws nor produces dates. -/
theorem listDateRange_inverted_empty (s e : String) (ds de : Int)
    (hs : parseDay s = some ds) (he : parseDay e = some de)
    (hlt : de < ds) :
    listDateRange s e = [] := by
  simp only [listDateRange, hs, he]
  rw [show (de + 1 - ds).toNat = 0 by omega]
  simp

/-- Witness for C9 at the inverted range `["2026-01-05", "2026-01-03"]`. -/
theorem listDateRange_inverted_empty_witness :
    listDateRange "2026-01-05" "2026-01-03" = [] :=
  listDateRange_inverted_empty "2026-01-05" "2026-01-03" 20458 20456
    (by decide) (by decide) (by decide)

/-- C6: `upsertWeeklyRollup` is idempotent on identical input, replaces
wholesale on a second write with the same `(category, periodStart)` key
(last write wins, all fields), and preserves the invariant that no two
stored rows share a `(category, periodStart)` key. -/
theorem upsertWeeklyRollup_spec :
    (∀ (store : RollupStore) (r : WeeklyRollup),
      upsertWeeklyRollup (upsertWeeklyRollup store r) r =
        upsertWeeklyRollup store r) ∧
    (∀ (store : RollupStore) (r r2 : WeeklyRollup),
      r2.category = r.category → r2.periodStart = r.periodStart →
      upsertWeeklyRollup (upsertWeeklyRollup store r) r2 =
        upsertWeeklyRollup store r2) ∧
    (∀ (store : RollupStore) (r : WeeklyRollup),
      uniqueKeys store → uniqueKeys (upsertWeeklyRollup store r)) := by
  refine ⟨fun store r => ?_, fun store r r2 h1 h2 => ?_, fun store r h => ?_⟩
  · simp [upsertWeeklyRollup, List.filter_append, List.filter_filter]
  · simp [upsertWeeklyRollup, h1, h2, List.filter_append, List.filter_filter]
  · unfold uniqueKeys upsertWeeklyRollup
    rw [List.pairwise_append]
    refine ⟨h.sublist (List.filter_sublist _), List.pairwise_singleton _ _, ?_⟩
    intro a ha b hb
    rw [List.mem_singleton] at hb
    subst hb
    have := List.of_mem_filter ha
    simp only [Bool.not_eq_true', Bool.and_eq_false_iff, beq_eq_false_iff_ne,
      ne_eq] at this
    rintro ⟨hc, hp⟩
    rcases this with hc2 | hp2
    · exact hc2 hc
    · exact hp2 hp

/-- Concrete stored rollup used to instantiate the store theorems. -/
def exampleRowA : WeeklyRollup :=
  { category := "blood_sugar", periodStart := "2026-01-01",
    periodEnd := "2026-01-07", streak := 3, completionRate := 50, xp := 84,
    badges := ["Mandy-Mode Consistency"],
    stats := { entriesByDate := [("2026-01-01", 1)], avg := some 95,
               min := some 90, max := some 99, totalEntries := 7,
               macroSummary := [] } }

/-- A different rollup for the same `(category, periodStart)` key. -/
def exampleRowB : WeeklyRollup :=
  { category := "blood_sugar", periodStart := "2026-01-01",
    periodEnd := "2026-01-07", streak := 7, completionRate := 100, xp := 242,
    badges := [],
    stats := { entriesByDate := [], avg := none, min := none,
               max := none, totalEntries := 14, macroSummary := [] } }

/-- Witness for C6: replacing a stored row by a different rollup with
the same key is observably a single write of the new rollup. -/
theorem upsertWeeklyRollup_spec_witness :
    upsertWeeklyRollup (upsertWeeklyRollup [] exampleRowA) exampleRowB =
      upsertWeeklyRollup [] exampleRowB :=
  upsertWeeklyRollup_spec.2.1 [] exampleRowA exampleRowB rfl rfl

/-- A streak over an empty count map is always zero. -/
lemma streakLoop_nil_counts (l : List String) : streakLoop [] l = 0 := by
  cases l with
  | nil => rfl
  | cons d rest => simp [streakLoop, getCount, getKey]

/-- C10: when no stored rollup passes the month filter, the blood-sugar
monthly aggregation returns the all-zero well-formed summary (zero
rollups included, zero totals and stats, no badges, empty per-day
counts) instead of failing. -/
theorem aggregateBloodSugarMonth_empty (rollups : List Rollup)
    (monthStart monthEnd : String) (includePartialWeeks : Bool)
    (h : filterRollups rollups monthStart monthEnd includePartialWeeks = []) :
    aggregateBloodSugarMonth rollups monthStart monthEnd includePartialWeeks =
      { monthStart := monthStart, monthEnd := monthEnd, rollupsIncluded := 0,
        totalEntries := 0, average := 0, min := 0, max := 0,
        completionRate := 0, streak := 0, xp := 0, badges := [],
        entriesByDate := [] } := by
  simp only [aggregateBloodSugarMonth, h]
  simp only [mergeEntriesByDate, mergeLoop, sumValues, List.map_nil,
    List.sum_nil, List.foldl_nil, List.length_nil,
    calculateCurrentStreak, streakLoop_nil_counts]
  norm_num

/-- Witness for C10 on an empty store and January 2026. -/
theorem aggregateBloodSugarMonth_empty_witness :
    aggregateBloodSugarMonth [] "2026-01-01" "2026-01-31" false =
      { monthStart := "2026-01-01", monthEnd := "2026-01-31",
        rollupsIncluded := 0, totalEntries := 0, average := 0, min := 0,
        max := 0, completionRate := 0, streak := 0, xp := 0, badges := [],
        entriesByDate := [] } :=
  aggregateBloodSugarMonth_empty [] "2026-01-01" "2026-01-31" false rfl

/-- A food week with one entry on each of its seven days. -/
def exampleFoodWeek : List Food.Entry :=
  ["2026-01-01", "2026-01-02", "2026-01-03", "2026-01-04", "2026-01-05",
   "2026-01-06", "2026-01-07"].map
    (fun d => { pageId := "p", date := d, loggedAt := d, food := "oatmeal",
                macros := [("calories", 150)] })

/-- Counterexample to C3: a food rollup with `totalEntries = 7` (which
the claim says must carry the weekly-consistency badge and a positive
score) has an empty badge list and score 0 — `buildFoodRollup` never
invokes the scoring engine. -/
theorem buildFoodRollup_no_scoring_counterexample :
    (buildFoodRollup exampleFoodWeek "2026-01-01" "2026-01-07").stats.totalEntries = 7 ∧
    (buildFoodRollup exampleFoodWeek "2026-01-01" "2026-01-07").badges = [] ∧
    (buildFoodRollup exampleFoodWeek "2026-01-01" "2026-01-07").xp = 0 := by
  refine ⟨?_, rfl, rfl⟩
  simp [buildFoodRollup, exampleFoodWeek]

/-- C3 amended: only the blood-sugar rollup builder invokes the scoring
engine — its badges and score are `buildBadges`/`calculateXp` applied
to its stats — while the food rollup builder returns score 0 and an
empty badge list regardless of its stats. -/
theorem rollup_scoring_amended :
    (∀ (entries : List Food.Entry) (s e : String),
      (buildFoodRollup entries s e).xp = 0 ∧
      (buildFoodRollup entries s e).badges = []) ∧
    (∀ (entries : List BloodSugar.Entry) (s e : String),
      (buildBloodSugarRollup entries s e).badges =
        buildBadges (listDateRange s e)
          (countEntriesByDate BloodSugar.Entry.date entries)
          (buildBloodSugarRollup entries s e).stats.totalEntries
          (buildBloodSugarRollup entries s e).stats.avg
          (hasPerfectWeekStreak (listDateRange s e)
            (countEntriesByDate BloodSugar.Entry.date entries)) ∧
      (buildBloodSugarRollup entries s e).xp =
        calculateXp (buildBloodSugarRollup entries s e).stats.totalEntries
          (buildBloodSugarRollup entries s e).stats.avg
          (hasPerfectWeekStreak (listDateRange s e)
            (countEntriesByDate BloodSugar.Entry.date entries))) :=
  ⟨fun _ _ _ => ⟨rfl, rfl⟩, fun _ _ _ => ⟨rfl, rfl⟩⟩

/-- Three same-day readings in a one-day period: more entries than the
expected `daysInRange * 2`. -/
def exampleOverfull : List BloodSugar.Entry :=
  List.replicate 3 { date := "2026-01-01", createdTime := none, value := 100 }

/-- Counterexample to C4: a blood-sugar period whose entry count (3)
exceeds `daysInRange * 2` (= 2) yields `completionRate = 150 > 100` —
the builder does not clamp the rate. -/
theorem completionRate_counterexample :
    (buildBloodSugarRollup exampleOverfull "2026-01-01" "2026-01-01").stats.totalEntries = 3 ∧
    (buildBloodSugarRollup exampleOverfull "2026-01-01" "2026-01-01").stats.expected = 2 ∧
    (buildBloodSugarRollup exampleOverfull "2026-01-01" "2026-01-01").completionRate = 150 ∧
    ¬((buildBloodSugarRollup exampleOverfull "2026-01-01" "2026-01-01").completionRate ≤ 100) := by
  have hdr : listDateRange "2026-01-01" "2026-01-01" = ["2026-01-01"] := by decide
  refine ⟨?_, ?_, ?_, ?_⟩ <;>
    simp [buildBloodSugarRollup, exampleOverfull, hdr, jsRound, round_eq] <;>
    norm_num

/-- Rounding a nonnegative rational is nonnegative. -/
lemma jsRound_nonneg {x : ℚ} (h : 0 ≤ x) : 0 ≤ jsRound x := by
  rw [jsRound, round_eq]
  exact Int.le_floor.mpr (by push_cast; linarith)

/-- Rounding a rational bounded by 100 stays bounded by 100. -/
lemma jsRound_le_hundred {x : ℚ} (h : x ≤ 100) : jsRound x ≤ 100 := by
  rw [jsRound, round_eq]
  exact Int.floor_le_iff.mpr (by push_cast; linarith)

/-- C4 amended: both builders always produce a nonnegative integer
`completionRate`; the food builder's rate is also always at most 100,
and the blood-sugar builder's rate is at most 100 whenever
`totalEntries` does not exceed the expected count `daysInRange * 2`
(without that bound it can exceed 100, see the counterexample). -/
theorem completionRate_bounds :
    (∀ (entries : List Food.Entry) (s e : String),
      0 ≤ (buildFoodRollup entries s e).completionRate ∧
      (buildFoodRollup entries s e).completionRate ≤ 100) ∧
    (∀ (entries : List BloodSugar.Entry) (s e : String),
      0 ≤ (buildBloodSugarRollup entries s e).completionRate) ∧
    (∀ (entries : List BloodSugar.Entry) (s e : String),
      (entries.length : Int) ≤ ((listDateRange s e).length : Int) * 2 →
      (buildBloodSugarRollup entries s e).completionRate ≤ 100) := by
  have hfood : ∀ (entries : List Food.Entry) (s e : String),
      (buildFoodRollup entries s e).completionRate =
        (if (listDateRange s e).length = 0 then 0
         else jsRound
           (((((listDateRange s e).filter (fun date =>
               decide (0 < getCount (countEntriesByDate Food.Entry.date entries) date))).length : Int) : ℚ) /
             (((listDateRange s e).length : Nat) : ℚ) * 100)) :=
    fun _ _ _ => rfl
  have hbs : ∀ (entries : List BloodSugar.Entry) (s e : String),
      (buildBloodSugarRollup entries s e).completionRate =
        (if (((listDateRange s e).length : Int) * 2) = 0 then 0
         else jsRound
           ((((entries.map BloodSugar.Entry.value).length : Int) : ℚ) /
             ((((listDateRange s e).length : Int) * 2 : Int) : ℚ) * 100)) :=
    fun _ _ _ => rfl
  refine ⟨fun entries s e => ?_, fun entries s e => ?_, fun entries s e hle => ?_⟩
  · rw [hfood]
    by_cases hl : (listDateRange s e).length = 0
    · simp [hl]
    · simp only [hl, if_false]
      have hlp : (0 : ℚ) < ((listDateRange s e).length : ℚ) := by
        exact_mod_cast Nat.pos_of_ne_zero hl
      have hfle : ((listDateRange s e).filter (fun date =>
          decide (0 < getCount (countEntriesByDate Food.Entry.date entries) date))).length ≤
          (listDateRange s e).length := List.length_filter_le _ _
      constructor
      · apply jsRound_nonneg
        positivity
      · apply jsRound_le_hundred
        have h1 : ((((listDateRange s e).filter (fun date =>
            decide (0 < getCount (countEntriesByDate Food.Entry.date entries) date))).length : Int) : ℚ) /
            (((listDateRange s e).length : Nat) : ℚ) ≤ 1 := by
          rw [div_le_one hlp]
          exact_mod_cast hfle
        nlinarith
  · rw [hbs]
    by_cases hl : (((listDateRange s e).length : Int) * 2) = 0
    · simp [hl]
    · simp only [hl, if_false]
      have hlp : (0 : ℚ) < ((((listDateRange s e).length : Int) * 2 : Int) : ℚ) := by
        have : (0 : Int) ≤ ((listDateRange s e).length : Int) * 2 := by positivity
        have hne : (((listDateRange s e).length : Int) * 2) ≠ 0 := hl
        exact_mod_cast lt_of_le_of_ne this (Ne.symm hne)
      apply jsRound_nonneg
      positivity
  · rw [hbs]
    by_cases hl : (((listDateRange s e).length : Int) * 2) = 0
    · simp [hl]
    · simp only [hl, if_false]
      have hlp : (0 : ℚ) < ((((listDateRange s e).length : Int) * 2 : Int) : ℚ) := by
        have h0 : (0 : Int) ≤ ((listDateRange s e).length : Int) * 2 := by positivity
        have hne : (((listDateRange s e).length : Int) * 2) ≠ 0 := hl
        exact_mod_cast lt_of_le_of_ne h0 (Ne.symm hne)
      apply jsRound_le_hundred
      have h1 : (((entries.map BloodSugar.Entry.value).length : Int) : ℚ) /
          ((((listDateRange s e).length : Int) * 2 : Int) : ℚ) ≤ 1 := by
        rw [div_le_one hlp]
        rw [List.length_map]
        exact_mod_cast hle
      nlinarith

/-- Witness for C4 amended: an empty one-day blood-sugar period
satisfies the entry bound and its completion rate is at most 100. -/
theorem completionRate_bounds_witness :
    (buildBloodSugarRollup [] "2026-01-01" "2026-01-01").completionRate ≤ 100 :=
  completionRate_bounds.2.2 [] "2026-01-01" "2026-01-01" (by decide)

/-- Combine two optional per-day counts, taking the maximum when both
rollups report the day. -/
def maxOpt : Option Int → Option Int → Option Int
  | none, b => b
  | some a, none => some a
  | some a, some b => some (Max.max a b)

lemma maxOpt_none_right (a : Option Int) : maxOpt a none = a := by
  cases a <;> rfl

lemma getKey_none_of_not_mem {α : Type} (m : List (String × α)) (k : String)
    (h : k ∉ m.map Prod.fst) : getKey m k = none := by
  induction m with
  | nil => rfl
  | cons p rest ih =>
    obtain ⟨k1, v1⟩ := p
    simp only [List.map_cons, List.mem_cons, not_or] at h
    simp [getKey, h.1, ih h.2]

lemma getKey_append_single {α : Type} (m : List (String × α)) (k : String)
    (v : α) (d : String) :
    getKey (m ++ [(k, v)]) d =
      match getKey m d with
      | some c => some c
      | none => if d = k then some v else none := by
  induction m with
  | nil => simp [getKey]
  | cons p rest ih =>
    obtain ⟨k1, v1⟩ := p
    by_cases h : d = k1 <;> simp [getKey, h, ih]

lemma getKey_setKey {α : Type} (m : List (String × α)) (k : String) (w : α)
    (d : String) :
    getKey (setKey m k w) d = if d = k then some w else getKey m d := by
  induction m with
  | nil =>
    by_cases hdk : d = k <;> simp [setKey, getKey, hdk]
  | cons p rest ih =>
    obtain ⟨k1, v1⟩ := p
    by_cases h1 : k = k1
    · subst h1
      by_cases hdk : d = k <;> simp [setKey, getKey, hdk]
    · by_cases hdk : d = k1
      · subst hdk
        simp [setKey, getKey, h1, Ne.symm h1]
      · simp [setKey, getKey, h1, hdk, ih]

/-- Lookup characterization of `mergeInto`: outside the month window
the accumulator is untouched; inside it, the looked-up day combines the
accumulator's count and the rollup's count by maximum. -/
lemma getKey_mergeInto (ms me : String) (entries : CountMap) (acc : CountMap)
    (d : String) (hnd : (entries.map Prod.fst).Nodup) :
    getKey (mergeInto ms me acc entries) d =
      if jsLt d ms || jsLt me d then getKey acc d
      else maxOpt (getKey acc d) (getKey entries d) := by
  induction entries generalizing acc with
  | nil =>
    simp [mergeInto, getKey, maxOpt_none_right]
  | cons p rest ih =>
    obtain ⟨k, v⟩ := p
    simp only [List.map_cons, List.nodup_cons] at hnd
    obtain ⟨hk, hnd'⟩ := hnd
    rw [mergeInto]
    cases hw : (jsLt k ms || jsLt me k) with
    | true =>
      rw [if_pos rfl, ih _ hnd']
      by_cases hdk : d = k
      · subst hdk
        simp [hw, getKey]
      · simp [getKey, hdk]
    | false =>
      rw [if_neg (by simp [hw])]
      cases hacc : getKey acc k with
      | none =>
        rw [ih _ hnd']
        by_cases hdk : d = k
        · subst hdk
          rw [getKey_append_single, hacc, getKey_none_of_not_mem rest d hk]
          simp [hw, getKey, hacc, maxOpt]
        · rw [getKey_append_single]
          cases had : getKey acc d <;> simp [had, hdk, getKey]
      | some c =>
        rw [ih _ hnd', getKey_setKey]
        by_cases hdk : d = k
        · subst hdk
          rw [getKey_none_of_not_mem rest d hk]
          simp [hw, getKey, hacc, maxOpt]
        · rw [if_neg hdk]
          simp [getKey, hdk]

/-- Lookup characterization of the fold over all rollups. -/
lemma getKey_mergeLoop (ms me : String) (rs : List Rollup) (acc : CountMap)
    (d : String)
    (h : ∀ r ∈ rs, (r.stats.entriesByDate.map Prod.fst).Nodup) :
    getKey (mergeLoop ms me acc rs) d =
      if jsLt d ms || jsLt me d then getKey acc d
      else rs.foldl (fun o r => maxOpt o (getKey r.stats.entriesByDate d))
        (getKey acc d) := by
  induction rs generalizing acc with
  | nil => simp [mergeLoop]
  | cons r rest ih =>
    rw [mergeLoop, ih _ (fun x hx => h x (List.mem_cons_of_mem r hx)),
      getKey_mergeInto ms me _ _ _ (h r (List.mem_cons_self r rest))]
    by_cases hw : (jsLt d ms || jsLt me d) = true
    · simp [hw]
    · simp [hw, List.foldl_cons]

/-- A rollup of January week 1 reporting one entry on 2026-01-02. -/
def exampleFoodRollupA : Rollup :=
  { category := "food", periodStart := "2026-01-01",
    periodEnd := "2026-01-07", streak := 0, completionRate := 0, xp := 0,
    badges := [],
    stats := { entriesByDate := [("2026-01-02", 1)], avg := none,
               min := none, max := none, totalEntries := 1,
               macroSummary := [] },
    runId := "food-2026-01-01-2026-01-07" }

/-- An overlapping rollup reporting the same 2026-01-02 entry plus two
entries on 2026-01-06. -/
def exampleFoodRollupB : Rollup :=
  { category := "food", periodStart := "2026-01-02",
    periodEnd := "2026-01-08", streak := 0, completionRate := 0, xp := 0,
    badges := [],
    stats := { entriesByDate := [("2026-01-02", 1), ("2026-01-06", 2)],
               avg := none, min := none, max := none, totalEntries := 3,
               macroSummary := [] },
    runId := "food-2026-01-02-2026-01-08" }

/-- C1: the monthly merge builds `entriesByDate` as the union of the
filtered rollups' per-day counts restricted to the month window —
every in-window day maps to the maximum (never the sum) of the counts
the rollups report for it, and out-of-window days are dropped — and
the aggregation's `totalEntries` is the sum of the merged per-day
counts; the rollups with counts `[2026-01-02: 1]` and
`[2026-01-02: 1, 2026-01-06: 2]` merge to
`[2026-01-02: 1, 2026-01-06: 2]` with `totalEntries = 3`. -/
theorem mergeEntriesByDate_spec :
    (∀ (rollups : List Rollup) (ms me d : String),
      (∀ r ∈ rollups, (r.stats.entriesByDate.map Prod.fst).Nodup) →
      getKey (mergeEntriesByDate rollups ms me) d =
        if jsLt d ms || jsLt me d then none
        else rollups.foldl
          (fun o r => maxOpt o (getKey r.stats.entriesByDate d)) none) ∧
    (∀ (rollups : List Rollup) (ms me : String) (includePartialWeeks : Bool),
      (aggregateFoodMonth rollups ms me includePartialWeeks).entriesByDate =
        mergeEntriesByDate (filterRollups rollups ms me includePartialWeeks)
          ms me ∧
      (aggregateFoodMonth rollups ms me includePartialWeeks).totalEntries =
        sumValues (mergeEntriesByDate
          (filterRollups rollups ms me includePartialWeeks) ms me)) ∧
    mergeEntriesByDate [exampleFoodRollupA, exampleFoodRollupB]
      "2026-01-01" "2026-01-31" = [("2026-01-02", 1), ("2026-01-06", 2)] ∧
    (aggregateFoodMonth [exampleFoodRollupA, exampleFoodRollupB]
      "2026-01-01" "2026-01-31" true).totalEntries = 3 := by
  refine ⟨fun rollups ms me d h => ?_, fun rollups ms me mode => ⟨rfl, rfl⟩,
    by decide, by decide⟩
  rw [mergeEntriesByDate, getKey_mergeLoop ms me rollups [] d h]
  rfl

/-- Witness for C1: the lookup characterization instantiated on the
two overlapping example rollups at the shared day. -/
theorem mergeEntriesByDate_spec_witness :
    getKey (mergeEntriesByDate [exampleFoodRollupA, exampleFoodRollupB]
      "2026-01-01" "2026-01-31") "2026-01-02" =
      if jsLt "2026-01-02" "2026-01-01" || jsLt "2026-01-31" "2026-01-02" then
        none
      else
        [exampleFoodRollupA, exampleFoodRollupB].foldl
          (fun o r => maxOpt o (getKey r.stats.entriesByDate "2026-01-02"))
          none :=
  mergeEntriesByDate_spec.1 [exampleFoodRollupA, exampleFoodRollupB]
    "2026-01-01" "2026-01-31" "2026-01-02" (by decide)

/-- The contribution condition of the blood-sugar aggregation loop:
`typeof stats.avg === "number" && count > 0`. -/
def contributes (r : Rollup) : Bool :=
  (r.stats.avg).isSome && decide (0 < r.stats.totalEntries)

lemma bsStep_weightedSum (a : BSAcc) (r : Rollup) :
    (bsStep a r).weightedSum =
      if contributes r then
        a.weightedSum + (r.stats.avg).getD 0 * (r.stats.totalEntries : ℚ)
      else a.weightedSum := by
  unfold bsStep contributes
  cases havg : r.stats.avg <;> cases hmin : r.stats.min <;>
    cases hmax : r.stats.max <;> by_cases hc : 0 < r.stats.totalEntries <;>
    simp [havg, hmin, hmax, hc]

lemma bsStep_weightedCount (a : BSAcc) (r : Rollup) :
    (bsStep a r).weightedCount =
      if contributes r then a.weightedCount + r.stats.totalEntries
      else a.weightedCount := by
  unfold bsStep contributes
  cases havg : r.stats.avg <;> cases hmin : r.stats.min <;>
    cases hmax : r.stats.max <;> by_cases hc : 0 < r.stats.totalEntries <;>
    simp [havg, hmin, hmax, hc]

/-- The aggregation loop accumulates exactly the weighted sum and the
weight over the contributing rollups, in list order. -/
lemma bsFold_weighted (rs : List Rollup) (a : BSAcc) :
    (rs.foldl bsStep a).weightedSum =
      a.weightedSum + ((rs.filter contributes).map
        (fun r => (r.stats.avg).getD 0 * (r.stats.totalEntries : ℚ))).sum ∧
    (rs.foldl bsStep a).weightedCount =
      a.weightedCount + ((rs.filter contributes).map
        (fun r => r.stats.totalEntries)).sum := by
  induction rs generalizing a with
  | nil => simp
  | cons r rest ih =>
    rw [List.foldl_cons]
    obtain ⟨ihs, ihc⟩ := ih (bsStep a r)
    rw [List.filter_cons]
    cases hcb : contributes r
    · simp [ihs, ihc, bsStep_weightedSum, bsStep_weightedCount, hcb]
    · constructor
      · rw [ihs, bsStep_weightedSum, if_pos hcb]
        simp [add_assoc]
      · rw [ihc, bsStep_weightedCount, if_pos hcb]
        simp [add_assoc]

/-- A list of positive integers sums to zero exactly when it is empty. -/
lemma sum_eq_zero_iff_nil (l : List Int) (h : ∀ x ∈ l, 0 < x) :
    l.sum = 0 ↔ l = [] := by
  induction l with
  | nil => simp
  | cons x rest ih =>
    have hx : 0 < x := h x (List.mem_cons_self x rest)
    have hrest : 0 ≤ rest.sum := by
      apply List.sum_nonneg
      intro y hy
      exact le_of_lt (h y (List.mem_cons_of_mem x hy))
    simp only [List.sum_cons, List.cons_ne_nil, iff_false]
    omega

/-- Weekly rollup with `avg = 90` over 2 entries, fully inside
January 2026. -/
def exampleBS90 : Rollup :=
  { category := "blood_sugar", periodStart := "2026-01-01",
    periodEnd := "2026-01-07", streak := 0, completionRate := 0, xp := 0,
    badges := [],
    stats := { entriesByDate := [("2026-01-01", 2)], avg := some 90,
               min := some 85, max := some 95, totalEntries := 2,
               macroSummary := [] },
    runId := "blood_sugar-2026-01-01-2026-01-07" }

/-- Weekly rollup with `avg = 110` over 2 entries, fully inside
January 2026. -/
def exampleBS110 : Rollup :=
  { category := "blood_sugar", periodStart := "2026-01-08",
    periodEnd := "2026-01-14", streak := 0, completionRate := 0, xp := 0,
    badges := [],
    stats := { entriesByDate := [("2026-01-08", 2)], avg := some 110,
               min := some 100, max := some 120, totalEntries := 2,
               macroSummary := [] },
    runId := "blood_sugar-2026-01-08-2026-01-14" }

/-- C2: over well-formed blood-sugar rollups (numeric `avg` present),
the monthly average is the `totalEntries`-weighted average of the
included rollups' averages, restricted to rollups with
`totalEntries > 0`, rounded to one decimal place — and 0 when no
rollup contributes; rollups `(avg 90, 2 entries)` and
`(avg 110, 2 entries)` aggregate to average 100. -/
theorem aggregateBloodSugarMonth_average_spec :
    (∀ (rollups : List Rollup) (monthStart monthEnd : String)
        (includePartialWeeks : Bool),
      (∀ r ∈ filterRollups rollups monthStart monthEnd includePartialWeeks,
        (r.stats.avg).isSome) →
      (aggregateBloodSugarMonth rollups monthStart monthEnd
        includePartialWeeks).average =
        (let contributing :=
          (filterRollups rollups monthStart monthEnd includePartialWeeks).filter
            (fun r => decide (0 < r.stats.totalEntries));
        if contributing = [] then 0
        else round1
          ((contributing.map
            (fun r => (r.stats.avg).getD 0 * (r.stats.totalEntries : ℚ))).sum /
            (((contributing.map (fun r => r.stats.totalEntries)).sum : Int) : ℚ)))) ∧
    (aggregateBloodSugarMonth [exampleBS90, exampleBS110]
      "2026-01-01" "2026-01-31" false).average = 100 := by
  constructor
  · intro rollups monthStart monthEnd includePartialWeeks h
    have hfc : (filterRollups rollups monthStart monthEnd
        includePartialWeeks).filter contributes =
        (filterRollups rollups monthStart monthEnd includePartialWeeks).filter
          (fun r => decide (0 < r.stats.totalEntries)) := by
      apply List.filter_congr
      intro r hr
      unfold contributes
      rw [Option.isSome_iff_exists.mpr
        (Option.isSome_iff_exists.mp (h r hr)), Bool.true_and]
    have hsum := bsFold_weighted
      (filterRollups rollups monthStart monthEnd includePartialWeeks)
      ⟨0, 0, none, none, 0, []⟩
    show (let _dateRange := listDateRange monthStart monthEnd; _) = _
    simp only [aggregateBloodSugarMonth]
    rw [hsum.1, hsum.2, hfc]
    set contributing :=
      (filterRollups rollups monthStart monthEnd includePartialWeeks).filter
        (fun r => decide (0 < r.stats.totalEntries)) with hcdef
    have hpos : ∀ x ∈ contributing.map (fun r => r.stats.totalEntries), 0 < x := by
      intro x hx
      obtain ⟨r, hr, hrx⟩ := List.mem_map.mp hx
      have := List.of_mem_filter hr
      simp only [decide_eq_true_eq] at this
      omega
    have hzero : (contributing.map (fun r => r.stats.totalEntries)).sum = 0 ↔
        contributing = [] := by
      rw [sum_eq_zero_iff_nil _ hpos, List.map_eq_nil_iff]
    by_cases hc : contributing = []
    · simp [hc]
    · rw [if_neg (by rw [← hzero] at hc; simpa using fun heq => hc heq)]
      simp only [zero_add]
      rw [if_neg hc]
  · have hfil : filterRollups [exampleBS90, exampleBS110]
        "2026-01-01" "2026-01-31" false = [exampleBS90, exampleBS110] := by
      decide
    simp only [aggregateBloodSugarMonth, hfil]
    norm_num [bsStep, exampleBS90, exampleBS110, round1, round_eq]

/-- Witness for C2: the weighted-average characterization instantiated
on the two example rollups. -/
theorem aggregateBloodSugarMonth_average_spec_witness :
    (aggregateBloodSugarMonth [exampleBS90, exampleBS110]
      "2026-01-01" "2026-01-31" false).average =
      (let contributing :=
        (filterRollups [exampleBS90, exampleBS110] "2026-01-01" "2026-01-31"
          false).filter (fun r => decide (0 < r.stats.totalEntries));
      if contributing = [] then 0
      else round1
        ((contributing.map
          (fun r => (r.stats.avg).getD 0 * (r.stats.totalEntries : ℚ))).sum /
          (((contributing.map (fun r => r.stats.totalEntries)).sum : Int) : ℚ))) :=
  aggregateBloodSugarMonth_average_spec.1 [exampleBS90, exampleBS110]
    "2026-01-01" "2026-01-31" false (by decide)

end BloodSugarLog
